import Mathlib

/-!
Shallow embedding of `src/blockchain_verification.py` (GreenGuard backend):
the hash-chained ledger with proof-of-work sealing, the six smart-contract
evaluators, the contract execute wrapper, and the registry statistics.
Definitions are translated from the Python source; theorems settle the
frozen claims C1..C10.
-/

/-- Decimal digit to its ASCII character. -/
def digitChar (n : Nat) : Char := Char.ofNat (48 + n)

/-- Decimal digit characters of `n` (most significant first), fueled so that
kernel reduction works; `natCharsCore f n` is the digit list of `n` when
`n ≤ f` (empty for `n = 0`). -/
def natCharsCore : Nat → Nat → List Char
  | 0, _ => []
  | fuel+1, n => if n = 0 then [] else natCharsCore fuel (n / 10) ++ [digitChar (n % 10)]

/-- Decimal digit characters of `n`: model of Python `str` on a nonnegative int,
as used by `json.dumps` for the integer fields of a block. -/
def natChars (n : Nat) : List Char := if n = 0 then ['0'] else natCharsCore n n

/-- Decimal string of a natural number. -/
def natToStr (n : Nat) : String := String.mk (natChars n)

/-- Model of Python `str.startswith`. -/
def strStartsWith (s t : String) : Bool := t.data.isPrefixOf s.data

/-- Model of Python `int()` applied to an exact rational: truncation toward
zero. -/
def pyInt (q : ℚ) : Int := Int.tdiv q.num (q.den : Int)

/-- Model of the Python `in` operator on strings: `listSubstr n h` decides
whether `n` occurs as a contiguous substring of `h`. -/
def listSubstr (n : List Char) : List Char → Bool
  | [] => n.isEmpty
  | c :: rest => n.isPrefixOf (c :: rest) || listSubstr n rest

/-- Substring test on strings (Python `needle in hay`). -/
def strContains (hay needle : String) : Bool := listSubstr needle.data hay.data

/-- Distinct decimal digits render to distinct characters. -/
theorem digitChar_inj : ∀ a : Nat, a < 10 → ∀ b : Nat, b < 10 →
    digitChar a = digitChar b → a = b := by decide

/-- A nonzero number within fuel renders to a nonempty digit list. -/
theorem natCharsCore_eq_nil : ∀ fuel n : Nat, n ≤ fuel →
    natCharsCore fuel n = [] → n = 0 := by
  intro fuel
  cases fuel with
  | zero => intro n hn _; exact Nat.le_zero.mp hn
  | succ f =>
    intro n _ h
    by_cases h0 : n = 0
    · exact h0
    · simp [natCharsCore, h0] at h

/-- Fueled digit rendering is injective once the fuel dominates the value. -/
theorem natCharsCore_inj : ∀ f₁ : Nat, ∀ f₂ m n : Nat, m ≤ f₁ → n ≤ f₂ →
    natCharsCore f₁ m = natCharsCore f₂ n → m = n := by
  intro f₁
  induction f₁ with
  | zero =>
    intro f₂ m n hm hn h
    have hm0 : m = 0 := Nat.le_zero.mp hm
    subst hm0
    have : natCharsCore f₂ n = [] := by
      rw [← h]; rfl
    exact (natCharsCore_eq_nil f₂ n hn this).symm
  | succ f ih =>
    intro f₂ m n hm hn h
    by_cases hm0 : m = 0
    · subst hm0
      have hL : natCharsCore (f+1) 0 = [] := by simp [natCharsCore]
      rw [hL] at h
      exact (natCharsCore_eq_nil f₂ n hn h.symm).symm
    · by_cases hn0 : n = 0
      · subst hn0
        have hR : natCharsCore f₂ 0 = [] := by
          cases f₂ <;> simp [natCharsCore]
        rw [hR] at h
        exact absurd (natCharsCore_eq_nil (f+1) m hm h) hm0
      · obtain ⟨g, rfl⟩ : ∃ g, f₂ = g + 1 := by
          cases f₂ with
          | zero => exact absurd (Nat.le_zero.mp hn) hn0
          | succ g => exact ⟨g, rfl⟩
        rw [natCharsCore, natCharsCore] at h
        simp only [hm0, hn0, if_false] at h
        have h2 := congrArg List.reverse h
        simp only [List.reverse_append, List.reverse_cons, List.reverse_nil,
          List.nil_append, List.cons_append, List.cons.injEq] at h2
        obtain ⟨hdig, hrest⟩ := h2
        have hmod : m % 10 = n % 10 :=
          digitChar_inj _ (Nat.mod_lt _ (by norm_num)) _
            (Nat.mod_lt _ (by norm_num)) hdig
        have hdivle : m / 10 ≤ f := by
          have h1 : m / 10 < m := Nat.div_lt_self (Nat.pos_of_ne_zero hm0) (by norm_num)
          omega
        have hdivle2 : n / 10 ≤ g := by
          have h1 : n / 10 < n := Nat.div_lt_self (Nat.pos_of_ne_zero hn0) (by norm_num)
          omega
        have hdiv : m / 10 = n / 10 := by
          apply ih g (m / 10) (n / 10) hdivle hdivle2
          have := congrArg List.reverse hrest
          simpa using this
        omega

/-- A positive number never renders to the single digit string of zero. -/
theorem natChars_succ_ne_zero_chars : ∀ g : Nat, natChars (g+1) = ['0'] → False := by
  intro g h
  unfold natChars at h
  rw [if_neg (Nat.succ_ne_zero g)] at h
  rw [natCharsCore] at h
  rw [if_neg (Nat.succ_ne_zero g)] at h
  have hlen := congrArg List.length h
  simp only [List.length_append, List.length_cons, List.length_nil] at hlen
  have hpre : natCharsCore g ((g+1) / 10) = [] :=
    List.eq_nil_of_length_eq_zero (by omega)
  rw [hpre, List.nil_append] at h
  have hd : digitChar ((g+1) % 10) = digitChar 0 := by
    have h0 : digitChar 0 = '0' := by decide
    rw [h0]
    exact List.head_eq_of_cons_eq h
  have hmod := digitChar_inj _ (Nat.mod_lt _ (by norm_num)) 0 (by norm_num) hd
  have hdivle : (g+1) / 10 ≤ g := by
    have h1 : (g+1) / 10 < g+1 := Nat.div_lt_self (Nat.succ_pos g) (by norm_num)
    omega
  have hdiv := natCharsCore_eq_nil g ((g+1) / 10) hdivle hpre
  omega

/-- Decimal digit-list rendering of naturals is injective. -/
theorem natChars_inj : ∀ m n : Nat, natChars m = natChars n → m = n := by
  intro m n h
  match m, n with
  | 0, 0 => rfl
  | 0, g+1 =>
    exfalso
    have hz : natChars 0 = ['0'] := rfl
    exact natChars_succ_ne_zero_chars g (h ▸ hz)
  | g+1, 0 =>
    exfalso
    have hz : natChars 0 = ['0'] := rfl
    exact natChars_succ_ne_zero_chars g (h.trans hz)
  | a+1, b+1 =>
    have h1 : natCharsCore (a+1) (a+1) = natCharsCore (b+1) (b+1) := by
      unfold natChars at h
      rw [if_neg (Nat.succ_ne_zero a), if_neg (Nat.succ_ne_zero b)] at h
      exact h
    exact natCharsCore_inj (a+1) (b+1) (a+1) (b+1) (Nat.le_refl _) (Nat.le_refl _) h1

/-- Decimal string rendering of naturals is injective. -/
theorem natToStr_inj : ∀ m n : Nat, natToStr m = natToStr n → m = n := by
  intro m n h
  exact natChars_inj m n (by
    have := congrArg String.data h
    simpa [natToStr] using this)

/-- Arithmetic is carried out on `Nat` and reduced modulo `2^32` exactly where
the 32-bit words of SHA-256 overflow. -/
def w32 (n : Nat) : Nat := n % 4294967296

/-- Right rotation of a 32-bit word. -/
def rotr (n x : Nat) : Nat := w32 ((x >>> n) ||| (x <<< (32 - n)))

/-- SHA-256 choose function. -/
def shaCh (e f g : Nat) : Nat := (e &&& f) ^^^ ((e ^^^ 4294967295) &&& g)

/-- SHA-256 majority function. -/
def shaMaj (a b c : Nat) : Nat := (a &&& b) ^^^ (a &&& c) ^^^ (b &&& c)

/-- SHA-256 lowercase sigma 0. -/
def sSig0 (x : Nat) : Nat := (rotr 7 x) ^^^ (rotr 18 x) ^^^ (x >>> 3)

/-- SHA-256 lowercase sigma 1. -/
def sSig1 (x : Nat) : Nat := (rotr 17 x) ^^^ (rotr 19 x) ^^^ (x >>> 10)

/-- SHA-256 uppercase sigma 0. -/
def bSig0 (x : Nat) : Nat := (rotr 2 x) ^^^ (rotr 13 x) ^^^ (rotr 22 x)

/-- SHA-256 uppercase sigma 1. -/
def bSig1 (x : Nat) : Nat := (rotr 6 x) ^^^ (rotr 11 x) ^^^ (rotr 25 x)

/-- SHA-256 round constants. -/
def shaK : List Nat := [
  1116352408, 1899447441, 3049323471, 3921009573, 961987163, 1508970993,
  2453635748, 2870763221, 3624381080, 310598401, 607225278, 1426881987,
  1925078388, 2162078206, 2614888103, 3248222580, 3835390401, 4022224774,
  264347078, 604807628, 770255983, 1249150122, 1555081692, 1996064986,
  2554220882, 2821834349, 2952996808, 3210313671, 3336571891, 3584528711,
  113926993, 338241895, 666307205, 773529912, 1294757372, 1396182291,
  1695183700, 1986661051, 2177026350, 2456956037, 2730485921, 2820302411,
  3259730800, 3345764771, 3516065817, 3600352804, 4094571909, 275423344,
  430227734, 506948616, 659060556, 883997877, 958139571, 1322822218,
  1537002063, 1747873779, 1955562222, 2024104815, 2227730452, 2361852424,
  2428436474, 2756734187, 3204031479, 3329325298]

/-- SHA-256 initial hash state. -/
def shaH0 : List Nat := [
  1779033703, 3144134277, 1013904242, 2773480762,
  1359893119, 2600822924, 528734635, 1541459225]

/-- Big-endian 8-byte rendering of a 64-bit length. -/
def be64 (n : Nat) : List Nat := (List.range 8).map (fun i => (n >>> (56 - 8 * i)) % 256)

/-- SHA-256 message padding: a 0x80 byte, zeros to 56 mod 64, then the
bit length, big endian. -/
def padBytes (msg : List Nat) : List Nat :=
  msg ++ [128] ++ List.replicate ((119 - msg.length % 64) % 64) 0 ++ be64 (8 * msg.length)

/-- Group bytes into big-endian 32-bit words. -/
def bytesToWords : List Nat → List Nat
  | a :: b :: c :: d :: rest => (((a * 256 + b) * 256 + c) * 256 + d) :: bytesToWords rest
  | _ => []

/-- Split a word list into 16-word blocks (fueled for kernel reduction). -/
def chunk16 : Nat → List Nat → List (List Nat)
  | 0, _ => []
  | _, [] => []
  | f+1, ws => ws.take 16 :: chunk16 f (ws.drop 16)

/-- Extend a 16-word block by `fuel` scheduled words. -/
def extendW : Nat → List Nat → List Nat
  | 0, ws => ws
  | f+1, ws =>
    extendW f (ws ++ [w32 (sSig1 (ws.getD (ws.length - 2) 0) + ws.getD (ws.length - 7) 0 +
      sSig0 (ws.getD (ws.length - 15) 0) + ws.getD (ws.length - 16) 0)])

/-- One SHA-256 compression round on the 8-word working state. -/
def compressStep (st : List Nat) (kw : Nat × Nat) : List Nat :=
  match st with
  | [a, b, c, d, e, f, g, h] =>
    let t1 := w32 (h + bSig1 e + shaCh e f g + kw.1 + kw.2)
    let t2 := w32 (bSig0 a + shaMaj a b c)
    [w32 (t1 + t2), a, b, c, w32 (d + t1), e, f, g]
  | other => other

/-- Compress one 16-word message block into the hash state. -/
def compressBlock (st : List Nat) (ws16 : List Nat) : List Nat :=
  let ws := extendW 48 ws16
  let out := (shaK.zip ws).foldl compressStep st
  (st.zip out).map (fun p => w32 (p.1 + p.2))

/-- The 8-word SHA-256 digest of a byte list. -/
def sha256Words (msg : List Nat) : List Nat :=
  let ws := bytesToWords (padBytes msg)
  (chunk16 ws.length ws).foldl compressBlock shaH0

/-- Hex rendering of a 4-bit nibble. -/
def hexChar (n : Nat) : Char := if n < 10 then Char.ofNat (48 + n) else Char.ofNat (87 + n)

/-- Lowercase hex rendering of one 32-bit word. -/
def wordHex (w : Nat) : List Char := (List.range 8).map (fun i => hexChar ((w >>> (28 - 4 * i)) % 16))

/-- Hexadecimal SHA-256 digest of a string: model of
`hashlib.sha256(s.encode()).hexdigest()`. The byte encoding maps each
character to its code point, which agrees with UTF-8 on the ASCII strings
the source hashes. -/
def sha256hex (s : String) : String :=
  String.mk ((sha256Words (s.data.map Char.toNat)).foldl (fun acc w => acc ++ wordHex w) [])

/-- FIPS 180-2 test vector for the empty string. -/
theorem sha256hex_empty :
    sha256hex "" = "e3b0c44298fc1c149afbf4c8996fb92427ae41e4649b934ca495991b7852b855" := by
  rfl

/-- FIPS 180-2 test vector for the string abc. -/
theorem sha256hex_abc :
    sha256hex "abc" = "ba7816bf8f01cfea414140de5dae2223b00361a396177a9cb410ff61f20015ad" := by
  rfl

/-- A ledger block as the dict built by `_add_block_to_simple_chain` /
`_initialize_simple_blockchain`. The `timestamp` field holds the JSON
rendering of the float `time.time()` value, and `data` holds the canonical
sorted-key JSON rendering of the payload dict, so that the block's own
canonical serialization is a concatenation of these renderings. The genesis
block has no `nonce` key, hence `Option Nat`. -/
structure Block where
  index : Nat
  timestamp : String
  data : String
  previous_hash : String
  nonce : Option Nat
  hash : String
deriving DecidableEq

/-- Rendering of the optional `"nonce"` key (present on mined blocks,
absent on genesis); it sits between `"index"` and `"previous_hash"` in
sorted key order. -/
def nonceChars (o : Option Nat) : List Char :=
  match o with
  | none => []
  | some n => (", \"nonce\": ").data ++ natChars n

/-- Character list of `json.dumps(block_minus_hash, sort_keys=True)`: keys in
sorted order `data`, `index`, `nonce`, `previous_hash`, `timestamp`, with the
stored `hash` excluded — exactly what both the miner and
`_validate_blockchain_integrity` hash. -/
def serialChars (b : Block) : List Char :=
  ("\x7b\"data\": ").data ++ (b.data.data ++ ((", \"index\": ").data ++ (natChars b.index ++
  (nonceChars b.nonce ++ ((", \"previous_hash\": \"").data ++ (b.previous_hash.data ++
  (("\", \"timestamp\": ").data ++ (b.timestamp.data ++ ("\x7d").data))))))))

/-- Canonical sorted-key serialization of a block without its `hash` field. -/
def serializeNoHash (b : Block) : String := String.mk (serialChars b)

/-- The genesis payload dict rendered in canonical sorted-key form
(`message`, `timestamp`, `type`, `version`); `iso` is the
`datetime.utcnow().isoformat()` string. -/
def mkGenesisData (iso : String) : String :=
  "\x7b\"message\": \"GreenGuard Blockchain Genesis Block\", \"timestamp\": \"" ++ iso ++
  "\", \"type\": \"genesis\", \"version\": \"2.0_with_smart_contracts\"\x7d"

/-- The genesis block of `_initialize_simple_blockchain`: index 0,
`previous_hash` the string `"0"`, no nonce, and hash equal to the SHA-256 of
the fixed string `greenguard_genesis_block` (not of the block contents). -/
def mkGenesis (ts iso : String) : Block :=
  { index := 0, timestamp := ts, data := mkGenesisData iso, previous_hash := "0",
    nonce := none, hash := sha256hex "greenguard_genesis_block" }

/-- The two per-block checks of `_validate_blockchain_integrity`: the
previous-hash link and the recomputed hash, for hash function `H`. -/
def blockChecks (H : String → String) (prev b : Block) : Bool :=
  decide (b.previous_hash = prev.hash) && decide (H (serializeNoHash b) = b.hash)

/-- The integrity loop from block 1 onward: `prev` is the block before the
remaining list. -/
def verifyFrom (H : String → String) : Block → List Block → Bool
  | _, [] => true
  | prev, b :: rest => blockChecks H prev b && verifyFrom H b rest

/-- Model of `_validate_blockchain_integrity`, parametric in the hash
function `H` (the source instantiates it with SHA-256, `sha256hex` here):
chains of length 0 or 1 verify trivially; otherwise every block from index 1
is checked against its predecessor and its own recomputed hash. -/
def verifyIntegrity (H : String → String) (chain : List Block) : Bool :=
  match chain with
  | [] => true
  | b :: rest => verifyFrom H b rest

/-- The proof-of-work loop of `_add_block_to_simple_chain`: serialize, hash,
and bump the nonce until the digest starts with `"00"`. The source loop is
`while True` with no bound; the model makes the iteration count an explicit
`fuel` parameter, returning `none` when the bound is exhausted. -/
def mineLoop (H : String → String) : Nat → Block → Option Block
  | 0, _ => none
  | f+1, b =>
    let h := H (serializeNoHash b)
    if strStartsWith h "00" then some { b with hash := h }
    else mineLoop H f { b with nonce := b.nonce.map (· + 1) }

/-- The candidate block `_add_block_to_simple_chain` builds before mining:
`index = len(chain)`, `previous_hash = last.hash`, nonce 0. -/
def mkCandidate (chain : List Block) (dataStr ts : String) (prev : Block) : Block :=
  { index := chain.length, timestamp := ts, data := dataStr,
    previous_hash := prev.hash, nonce := some 0, hash := "" }

/-- Model of `_add_block_to_simple_chain`: build the candidate block, mine
it, append it, and return the new chain plus the id
`BLOCK_<index>_<int(timestamp)>`. The source seeds the genesis block first
when the chain is empty, so the model is stated for nonempty chains
(`getLast?` returning `some`); `tsInt` is `int(timestamp)`. -/
def addBlock (H : String → String) (fuel : Nat) (chain : List Block)
    (dataStr ts : String) (tsInt : Nat) : Option (List Block × String) :=
  match chain.getLast? with
  | none => none
  | some prev =>
    match mineLoop H fuel (mkCandidate chain dataStr ts prev) with
    | none => none
    | some b => some (chain ++ [b], "BLOCK_" ++ natToStr chain.length ++ "_" ++ natToStr tsInt)

/-- Changing only the stored hash leaves the hashed serialization unchanged. -/
theorem serializeNoHash_hash (b : Block) (v : String) :
    serializeNoHash { b with hash := v } = serializeNoHash b := rfl

/-- Strings with equal character lists are equal. -/
theorem strExt (s t : String) (h : s.data = t.data) : s = t := by
  cases s; cases t; exact congrArg String.mk h

/-- The decimal rendering of a natural number is never empty. -/
theorem natChars_ne_nil : ∀ n : Nat, natChars n ≠ [] := by
  intro n
  cases n with
  | zero => simp [natChars]
  | succ g =>
    unfold natChars
    rw [if_neg (Nat.succ_ne_zero g)]
    rw [natCharsCore]
    rw [if_neg (Nat.succ_ne_zero g)]
    simp

/-- The nonce segment determines the optional nonce. -/
theorem nonceChars_inj (o : Option Nat) (v : Nat)
    (h : nonceChars (some v) = nonceChars o) : o = some v := by
  cases o with
  | none =>
    exfalso
    rw [nonceChars, nonceChars] at h
    have := List.append_eq_nil.mp h
    have h10 : ((", \"nonce\": ").data : List Char) ≠ [] := by decide
    exact h10 this.1
  | some n =>
    rw [nonceChars, nonceChars] at h
    have h1 := List.append_cancel_left h
    exact congrArg some (natChars_inj v n h1).symm

/-- A single-field mutation of a block: the new value for exactly one of the
six dict keys (for `nonce`, source mutation keeps it an integer). -/
inductive BlockField
  | fIndex (v : Nat)
  | fTimestamp (v : String)
  | fData (v : String)
  | fPrev (v : String)
  | fNonce (v : Nat)
  | fHash (v : String)

/-- Apply a single-field mutation. -/
def setField (b : Block) : BlockField → Block
  | .fIndex v => { b with index := v }
  | .fTimestamp v => { b with timestamp := v }
  | .fData v => { b with data := v }
  | .fPrev v => { b with previous_hash := v }
  | .fNonce v => { b with nonce := some v }
  | .fHash v => { b with hash := v }

/-- Mutating the stored hash does not change the hashed serialization. -/
theorem setField_hash_ser (b : Block) (v : String) :
    serializeNoHash (setField b (.fHash v)) = serializeNoHash b := rfl

/-- Mutating the stored hash leaves every serialized field alone, so a
mutation that changes the block changed exactly the hash. -/
theorem setField_hash_ne (b : Block) (v : String)
    (hne : setField b (.fHash v) ≠ b) : v ≠ b.hash := by
  intro hv
  exact hne (by rw [setField, hv])

/-- Mutating any non-hash field of a block changes its canonical
serialization: the serialization is injective in each single field. -/
theorem setField_ser_ne (b : Block) (f : BlockField)
    (hno : ∀ v, f ≠ BlockField.fHash v) (hne : setField b f ≠ b) :
    serializeNoHash (setField b f) ≠ serializeNoHash b := by
  intro h
  have hc : serialChars (setField b f) = serialChars b := congrArg String.data h
  cases f with
  | fIndex v =>
    dsimp only [setField, serialChars] at hc
    have h1 := List.append_cancel_left hc
    have h2 := List.append_cancel_left h1
    have h3 := List.append_cancel_left h2
    have h4 := List.append_cancel_right h3
    exact hne (by rw [setField, natChars_inj v b.index h4])
  | fTimestamp v =>
    dsimp only [setField, serialChars] at hc
    have h1 := List.append_cancel_left hc
    have h2 := List.append_cancel_left h1
    have h3 := List.append_cancel_left h2
    have h4 := List.append_cancel_left h3
    have h5 := List.append_cancel_left h4
    have h6 := List.append_cancel_left h5
    have h7 := List.append_cancel_left h6
    have h8 := List.append_cancel_left h7
    have h9 := List.append_cancel_right h8
    exact hne (by rw [setField, strExt v b.timestamp h9])
  | fData v =>
    dsimp only [setField, serialChars] at hc
    have h1 := List.append_cancel_left hc
    have h2 := List.append_cancel_right h1
    exact hne (by rw [setField, strExt v b.data h2])
  | fPrev v =>
    dsimp only [setField, serialChars] at hc
    have h1 := List.append_cancel_left hc
    have h2 := List.append_cancel_left h1
    have h3 := List.append_cancel_left h2
    have h4 := List.append_cancel_left h3
    have h5 := List.append_cancel_left h4
    have h6 := List.append_cancel_left h5
    have h7 := List.append_cancel_right h6
    exact hne (by rw [setField, strExt v b.previous_hash h7])
  | fNonce v =>
    dsimp only [setField, serialChars] at hc
    have h1 := List.append_cancel_left hc
    have h2 := List.append_cancel_left h1
    have h3 := List.append_cancel_left h2
    have h4 := List.append_cancel_left h3
    have h5 := List.append_cancel_right h4
    have h6 := nonceChars_inj b.nonce v h5
    exact hne (by rw [setField, ← h6])
  | fHash v => exact absurd rfl (hno v)

/-- The two boolean checks, as propositions. -/
theorem blockChecks_iff (H : String → String) (prev b : Block) :
    blockChecks H prev b = true ↔
    b.previous_hash = prev.hash ∧ H (serializeNoHash b) = b.hash := by
  simp [blockChecks]

/-- Index characterization of the integrity loop over the tail of the chain. -/
theorem verifyFrom_iff (H : String → String) : ∀ (rest : List Block) (prev : Block),
    verifyFrom H prev rest = true ↔
    ∀ (i : Nat) (h : i < rest.length),
      (rest.get ⟨i, h⟩).previous_hash =
        ((prev :: rest).get ⟨i, by simp only [List.length_cons]; omega⟩).hash ∧
      H (serializeNoHash (rest.get ⟨i, h⟩)) = (rest.get ⟨i, h⟩).hash := by
  intro rest
  induction rest with
  | nil =>
    intro prev
    constructor
    · intro _ i h; exact absurd h (by simp)
    · intro _; rfl
  | cons b rest ih =>
    intro prev
    rw [show verifyFrom H prev (b :: rest) =
      (blockChecks H prev b && verifyFrom H b rest) from rfl]
    rw [Bool.and_eq_true, blockChecks_iff, ih b]
    constructor
    · rintro ⟨h0, hrec⟩ i h
      match i with
      | 0 => exact h0
      | j+1 => exact hrec j (by simpa using h)
    · intro hall
      refine ⟨hall 0 (by simp), ?_⟩
      intro j hj
      exact hall (j+1) (by simp only [List.length_cons]; omega)

/-- Index characterization of `_validate_blockchain_integrity`: the loop
returns true exactly when, for every index `i > 0`, the previous-hash link
holds and the recomputed hash of block `i` equals its stored hash. -/
theorem verifyIntegrity_iff (H : String → String) (chain : List Block) :
    verifyIntegrity H chain = true ↔
    ∀ (i : Nat), 0 < i → ∀ (h : i < chain.length),
      (chain.get ⟨i, h⟩).previous_hash = (chain.get ⟨i-1, by omega⟩).hash ∧
      H (serializeNoHash (chain.get ⟨i, h⟩)) = (chain.get ⟨i, h⟩).hash := by
  cases chain with
  | nil =>
    constructor
    · intro _ i _ h; exact absurd h (by simp)
    · intro _; rfl
  | cons b0 rest =>
    rw [show verifyIntegrity H (b0 :: rest) = verifyFrom H b0 rest from rfl,
      verifyFrom_iff H rest b0]
    constructor
    · intro hall i hi h
      obtain ⟨j, rfl⟩ : ∃ j, i = j + 1 := ⟨i - 1, by omega⟩
      exact hall j (by simpa using h)
    · intro hall j hj
      exact hall (j+1) (by omega) (by simp only [List.length_cons]; omega)

/-- Chains of length 0 or 1 always verify. -/
theorem verifyIntegrity_short (H : String → String) (chain : List Block)
    (h : chain.length ≤ 1) : verifyIntegrity H chain = true := by
  match chain with
  | [] => rfl
  | [b] => rfl
  | a :: b :: rest => simp at h

/-- A non-hash mutation keeps the stored hash. -/
theorem setField_hash_of_ne (b : Block) (f : BlockField)
    (hno : ∀ v, f ≠ BlockField.fHash v) : (setField b f).hash = b.hash := by
  cases f with
  | fIndex v => rfl
  | fTimestamp v => rfl
  | fData v => rfl
  | fPrev v => rfl
  | fNonce v => rfl
  | fHash v => exact absurd rfl (hno v)

/-- Tamper evidence: mutating any single field of any block after the genesis
block in a chain that verifies true makes `verify_integrity` return false,
provided the hash function is injective (the collision-resistance idealization
of SHA-256). -/
theorem verifyIntegrity_tamper (H : String → String) (hinj : Function.Injective H)
    (chain : List Block) (i : Nat) (hi : 0 < i) (h : i < chain.length)
    (f : BlockField) (hne : setField (chain.get ⟨i, h⟩) f ≠ chain.get ⟨i, h⟩)
    (hv : verifyIntegrity H chain = true) :
    verifyIntegrity H (chain.set i (setField (chain.get ⟨i, h⟩) f)) = false := by
  have hvb : H (serializeNoHash (chain.get ⟨i, h⟩)) = (chain.get ⟨i, h⟩).hash :=
    ((verifyIntegrity_iff H chain).mp hv i hi h).2
  cases hb : verifyIntegrity H (chain.set i (setField (chain.get ⟨i, h⟩) f)) with
  | false => rfl
  | true =>
    exfalso
    have hlen : i < (chain.set i (setField (chain.get ⟨i, h⟩) f)).length := by
      simpa using h
    have hgets : (chain.set i (setField (chain.get ⟨i, h⟩) f)).get ⟨i, hlen⟩ =
        setField (chain.get ⟨i, h⟩) f := by
      simp [List.get_eq_getElem]
    have hvb2 := ((verifyIntegrity_iff H _).mp hb i hi hlen).2
    rw [hgets] at hvb2
    by_cases hf : ∃ v, f = BlockField.fHash v
    · obtain ⟨v, rfl⟩ := hf
      rw [setField_hash_ser] at hvb2
      have hvhash : (setField (chain.get ⟨i, h⟩) (BlockField.fHash v)).hash = v := rfl
      rw [hvhash] at hvb2
      exact setField_hash_ne _ v hne (hvb2.symm.trans hvb)
    · have hno : ∀ v, f ≠ BlockField.fHash v := by
        intro v hv2; exact hf ⟨v, hv2⟩
      rw [setField_hash_of_ne _ _ hno] at hvb2
      have : serializeNoHash (setField (chain.get ⟨i, h⟩) f) =
          serializeNoHash (chain.get ⟨i, h⟩) :=
        hinj (hvb2.trans hvb.symm)
      exact setField_ser_ne _ _ hno hne this

/-- Model of the public `_validate_blockchain_integrity`, with the hash
function instantiated at SHA-256 as in the source. -/
def validate_blockchain_integrity (chain : List Block) : Bool :=
  verifyIntegrity sha256hex chain

/-- Claim C1: `verify_integrity` returns true on a chain of 0 or 1 blocks; it
returns true exactly when every block `i > 0` has `previous_hash` equal to the
predecessor's stored hash and the SHA-256 of its canonical sorted-key
serialization minus the stored hash equals the stored hash; and in a chain
that verifies true, mutating any single field of any proof-of-work-sealed
block (any index `i ≥ 1`) makes the verification return false, under the
collision-free idealization of the hash function (stated generically over an
injective `H`; SHA-256 collision resistance cannot be an assumption-free
theorem). -/
theorem C1_verify_integrity :
    (∀ chain : List Block, chain.length ≤ 1 → validate_blockchain_integrity chain = true) ∧
    (∀ chain : List Block, validate_blockchain_integrity chain = true ↔
      ∀ (i : Nat), 0 < i → ∀ (h : i < chain.length),
        (chain.get ⟨i, h⟩).previous_hash = (chain.get ⟨i-1, by omega⟩).hash ∧
        sha256hex (serializeNoHash (chain.get ⟨i, h⟩)) = (chain.get ⟨i, h⟩).hash) ∧
    (∀ H : String → String, Function.Injective H →
      ∀ (chain : List Block) (i : Nat), 0 < i → ∀ (h : i < chain.length),
        ∀ (f : BlockField), setField (chain.get ⟨i, h⟩) f ≠ chain.get ⟨i, h⟩ →
        verifyIntegrity H chain = true →
        verifyIntegrity H (chain.set i (setField (chain.get ⟨i, h⟩) f)) = false) :=
  ⟨fun chain => verifyIntegrity_short sha256hex chain,
   fun chain => verifyIntegrity_iff sha256hex chain,
   fun H hinj chain i hi h f hne hv => verifyIntegrity_tamper H hinj chain i hi h f hne hv⟩

/-- A two-block chain sealed with the identity hash, for concrete evaluation. -/
def wGen : Block := mkGenesis "1700000000.0" "2023-11-14T22:13:20"

/-- The base of the witness block before sealing. -/
def wB1base : Block :=
  { index := 1, timestamp := "1700000001.0", data := "\x7b\"type\": \"verification\"\x7d",
    previous_hash := wGen.hash, nonce := some 7, hash := "" }

/-- The sealed witness block: its hash is its own serialization (identity
hash function). -/
def wB1 : Block := { wB1base with hash := serializeNoHash wB1base }

/-- The witness chain. -/
def wChain : List Block := [wGen, wB1]

set_option maxRecDepth 100000 in
/-- Witness for C1: the concrete two-block chain verifies under the injective
identity hash, and tampering with the data field of its sealed block makes
verification fail. -/
theorem C1_verify_integrity_witness :
    validate_blockchain_integrity [] = true ∧
    verifyIntegrity id wChain = true ∧
    verifyIntegrity id (wChain.set 1 (setField (wChain.get ⟨1, by decide⟩)
      (BlockField.fData "tampered"))) = false := by
  have hver : verifyIntegrity id wChain = true := by decide
  refine ⟨C1_verify_integrity.1 [] (by decide), hver, ?_⟩
  exact C1_verify_integrity.2.2 id (fun a b hab => hab) wChain 1 (by decide) (by decide)
    (BlockField.fData "tampered") (by decide) hver

/-- Claim C3 concerns a bound the source does not have: its mining loop is
`while True` with no max-iteration or deadline parameter and no
`MiningTimeout` outcome. In the fueled model: a hash function that never
meets the target exhausts every bound with `none` — and `addBlock` likewise
returns `none` for every fuel, so no chain value is ever produced, let alone
a partially mutated one; a chain only changes via a successful append
(`addBlock_sound`). -/
theorem C3_mining_timeout_model :
    (∀ (fuel : Nat) (b : Block), mineLoop (fun _ => "ff") fuel b = none) ∧
    (∀ (fuel : Nat) (chain : List Block) (d ts : String) (ti : Nat),
      addBlock (fun _ => "ff") fuel chain d ts ti = none) := by
  have hml : ∀ (fuel : Nat) (b : Block), mineLoop (fun _ => "ff") fuel b = none := by
    intro fuel
    induction fuel with
    | zero => intro b; rfl
    | succ f ih =>
      intro b
      rw [mineLoop]
      have : strStartsWith "ff" "00" = false := by decide
      simp only [this, Bool.false_eq_true, if_false]
      exact ih _
  refine ⟨hml, ?_⟩
  intro fuel chain d ts ti
  unfold addBlock
  cases hl : chain.getLast? with
  | none => rfl
  | some prev =>
    dsimp only
    rw [hml fuel (mkCandidate chain d ts prev)]

/-- Contract lifecycle states (`ContractState` enum). -/
inductive ContractState
  | PENDING
  | ACTIVE
  | EXECUTED
  | FAILED
  | SUSPENDED
deriving DecidableEq

/-- The six contract variants (`ContractType` enum). -/
inductive ContractType
  | GREENWASHING_DETECTOR
  | SUSTAINABILITY_REWARDS
  | AUTOMATIC_FLAGGING
  | PENALTY_SYSTEM
  | VERIFICATION_BOUNTY
  | TRANSPARENCY_TRACKER
deriving DecidableEq

/-- The enum's string value. -/
def ContractType.value : ContractType → String
  | .GREENWASHING_DETECTOR => "greenwashing_detector"
  | .SUSTAINABILITY_REWARDS => "sustainability_rewards"
  | .AUTOMATIC_FLAGGING => "automatic_flagging"
  | .PENALTY_SYSTEM => "penalty_system"
  | .VERIFICATION_BOUNTY => "verification_bounty"
  | .TRANSPARENCY_TRACKER => "transparency_tracker"

/-- The `inputs` dict fields read by the six evaluators, with each field's
`inputs.get(..., default)` default as the structure default. Numeric inputs
are modelled as integers (the rule thresholds are integral); `disclosed_data`
is the key list of the disclosed-data map. -/
structure CInputs where
  company_name : String := "Unknown"
  verification_score : Int := 0
  confidence : Int := 0
  transparency_level : Int := 0
  certifications : List String := []
  claim : String := ""
  violation_severity : String := "LOW"
  repeat_offender : Bool := false
  impact_scale : String := "LOCAL"
  verifier_email : String := "unknown"
  verification_quality : Int := 0
  claim_complexity : String := "SIMPLE"
  verification_speed : String := "NORMAL"
  disclosed_data : List String := []
  response_time_hours : Int := 999
  data_completeness : Int := 0
deriving DecidableEq

/-- The `context` dict fields read by the evaluators: `company_history` as
each entry's `verification_score` (the `get` default 100 standing in for a
missing key), `verifier_history` as each entry's `bounty`, and
`transparency_history` as each entry's `transparency_score`. -/
structure CContext where
  company_history : List Int := []
  verifier_history : List Int := []
  transparency_history : List ℚ := []
deriving DecidableEq

/-- Result dict of `_greenwashing_detector_contract`. -/
structure GreenwashResult where
  contract_type : String
  company_name : String
  risk_assessment : String
  actions_triggered : List String
  alerts_generated : List String
  penalty_points : Int
  requires_human_review : Bool
  automated_response : Bool
deriving DecidableEq

/-- Model of `_greenwashing_detector_contract`. -/
def greenwashing_detector_contract (inputs : CInputs) (context : CContext) : GreenwashResult :=
  let company_name := inputs.company_name
  let verification_score := inputs.verification_score
  let confidence := inputs.confidence
  let base :=
    if verification_score < 20 ∧ confidence > 80 then
      (["IMMEDIATE_FLAG", "COMMUNITY_ALERT", "REGULATORY_NOTIFICATION"],
       ["CRITICAL: " ++ company_name ++ " making potentially false environmental claims"],
       (100 : Int))
    else if verification_score < 40 ∧ confidence > 60 then
      (["HIGH_RISK_FLAG", "REQUIRE_EVIDENCE"],
       ["HIGH RISK: " ++ company_name ++ " claims require verification"], 50)
    else if verification_score < 60 then
      (["MODERATE_RISK_FLAG", "REQUEST_CLARIFICATION"],
       ["MODERATE RISK: " ++ company_name ++ " claims need clarification"], 25)
    else
      (["APPROVED"], ["VERIFIED: " ++ company_name ++ " claims appear authentic"], 0)
  let company_history := context.company_history
  let withRepeat :=
    if company_history.length > 2 ∧
        2 ≤ ((company_history.drop (company_history.length - 5)).filter
          (fun h => decide (h < 40))).length then
      (base.1 ++ ["REPEAT_OFFENDER_FLAG"],
       base.2.1 ++ ["REPEAT OFFENDER: " ++ company_name ++ " has multiple violations"],
       base.2.2 + 200)
    else base
  { contract_type := "greenwashing_detector",
    company_name := company_name,
    risk_assessment := if verification_score < 20 then "CRITICAL"
      else if verification_score < 40 then "HIGH"
      else if verification_score < 60 then "MODERATE" else "LOW",
    actions_triggered := withRepeat.1,
    alerts_generated := withRepeat.2.1,
    penalty_points := withRepeat.2.2,
    requires_human_review := decide (verification_score < 30),
    automated_response := true }

/-- Result dict of `_sustainability_rewards_contract`; `next_tier_requirement`
is `none` for the string `MAX_TIER`. -/
structure RewardsResult where
  contract_type : String
  company_name : String
  points_awarded : Int
  badge_earned : String
  tier : String
  special_rewards : List String
  eligible_for_promotion : Bool
  next_tier_requirement : Option Nat
deriving DecidableEq

/-- Model of `_sustainability_rewards_contract`. -/
def sustainability_rewards_contract (inputs : CInputs) (context : CContext) : RewardsResult :=
  let company_name := inputs.company_name
  let verification_score := inputs.verification_score
  let transparency_level := inputs.transparency_level
  let certifications := inputs.certifications
  let total_points := verification_score + transparency_level * 20 +
    (certifications.length : Int) * 50
  let bt := if total_points ≥ 900 then ("SUSTAINABILITY_CHAMPION", "PLATINUM")
    else if total_points ≥ 700 then ("SUSTAINABILITY_LEADER", "GOLD")
    else if total_points ≥ 500 then ("SUSTAINABILITY_ADVOCATE", "SILVER")
    else if total_points ≥ 300 then ("SUSTAINABILITY_BEGINNER", "BRONZE")
    else ("NO_BADGE", "NONE")
  let special := (if verification_score ≥ 95 then ["TRANSPARENCY_EXCELLENCE"] else []) ++
    (if certifications.length ≥ 5 then ["CERTIFICATION_MASTER"] else []) ++
    (if transparency_level ≥ 90 then ["OPENNESS_CHAMPION"] else [])
  { contract_type := "sustainability_rewards",
    company_name := company_name,
    points_awarded := total_points,
    badge_earned := bt.1,
    tier := bt.2,
    special_rewards := special,
    eligible_for_promotion := decide (total_points ≥ 500),
    next_tier_requirement := if bt.2 = "NONE" then some 300
      else if bt.2 = "BRONZE" then some 500
      else if bt.2 = "SILVER" then some 700
      else if bt.2 = "GOLD" then some 900 else none }

/-- Result dict of `_automatic_flagging_contract`. -/
structure FlagResult where
  contract_type : String
  company_name : String
  flags_triggered : List String
  risk_score : Nat
  recommended_action : String
  priority : String
  requires_manual_review : Bool
  auto_flagged : Bool
deriving DecidableEq

/-- The fixed red-flag phrase list (the source literally includes the
asterisks). -/
def red_flag_keywords : List String :=
  ["100% natural", "completely eco-friendly", "totally green",
   "environmentally safe", "non-toxic", "chemical-free",
   "saves the planet", "carbon neutral*", "net zero*"]

/-- The vague-term list. -/
def vague_terms : List String :=
  ["eco-friendly", "green", "natural", "sustainable",
   "environmentally responsible", "clean", "pure"]

/-- The absolute-term list. -/
def absolute_terms : List String := ["100%", "completely", "totally", "never", "always"]

/-- Model of `_automatic_flagging_contract`. -/
def automatic_flagging_contract (inputs : CInputs) (context : CContext) : FlagResult :=
  let claim_text := inputs.claim.toLower
  let company_name := inputs.company_name
  let found := red_flag_keywords.filter (fun k => strContains claim_text k)
  let keyword_flags := found.map (fun k => "RED_FLAG_KEYWORD: " ++ k)
  let risk1 := 30 * found.length
  let vague_count := (vague_terms.filter (fun t => strContains claim_text t)).length
  let fr2 := if vague_count ≥ 3 then (["EXCESSIVE_VAGUE_LANGUAGE"], 40) else ([], 0)
  let absolute_count := (absolute_terms.filter (fun t => strContains claim_text t)).length
  let fr3 := if absolute_count ≥ 2 then (["ABSOLUTE_CLAIMS_WITHOUT_PROOF"], 50) else ([], 0)
  let flags := keyword_flags ++ fr2.1 ++ fr3.1
  let risk_score := risk1 + fr2.2 + fr3.2
  let ap := if risk_score ≥ 100 then ("IMMEDIATE_SUSPENSION", "CRITICAL")
    else if risk_score ≥ 70 then ("REQUIRE_IMMEDIATE_VERIFICATION", "HIGH")
    else if risk_score ≥ 40 then ("REQUEST_EVIDENCE", "MEDIUM")
    else ("MONITOR", "LOW")
  { contract_type := "automatic_flagging",
    company_name := company_name,
    flags_triggered := flags,
    risk_score := risk_score,
    recommended_action := ap.1,
    priority := ap.2,
    requires_manual_review := decide (risk_score ≥ 70),
    auto_flagged := decide (flags.length > 0) }

/-- Result dict of `_penalty_system_contract`; the `review_date` field (a
wall-clock value, `utcnow + 30 days`) is outside the pure model and omitted. -/
structure PenaltyResult where
  contract_type : String
  company_name : String
  penalty_points : Int
  consequences : List String
  rehabilitation_required : Bool
  appeal_allowed : Bool
deriving DecidableEq

/-- Model of `_penalty_system_contract`; the float scale multipliers are the
exact rationals 1, 3/2, 2, 3 and `int()` is `pyInt`. -/
def penalty_system_contract (inputs : CInputs) (context : CContext) : PenaltyResult :=
  let company_name := inputs.company_name
  let violation_severity := inputs.violation_severity
  let repeat_offender := inputs.repeat_offender
  let impact_scale := inputs.impact_scale
  let base : Int := if violation_severity = "LOW" then 10
    else if violation_severity = "MEDIUM" then 50
    else if violation_severity = "HIGH" then 200
    else if violation_severity = "CRITICAL" then 500 else 10
  let p1 : Int := if repeat_offender then base * 2 else base
  let mult : ℚ := if impact_scale = "LOCAL" then 1
    else if impact_scale = "REGIONAL" then 3/2
    else if impact_scale = "NATIONAL" then 2
    else if impact_scale = "GLOBAL" then 3 else 1
  let penalty_points : Int := pyInt ((p1 : ℚ) * mult)
  let consequences :=
    if penalty_points ≥ 1000 then
      ["PLATFORM_BAN", "REGULATORY_REFERRAL", "PUBLIC_WARNING_ISSUED"]
    else if penalty_points ≥ 500 then
      ["VERIFICATION_REQUIRED_FOR_ALL_CLAIMS", "MONTHLY_MONITORING", "PUBLIC_NOTICE"]
    else if penalty_points ≥ 200 then
      ["ENHANCED_SCRUTINY", "QUARTERLY_REVIEW", "WARNING_ISSUED"]
    else if penalty_points ≥ 50 then
      ["FORMAL_WARNING", "REQUIRED_TRAINING"]
    else []
  { contract_type := "penalty_system",
    company_name := company_name,
    penalty_points := penalty_points,
    consequences := consequences,
    rehabilitation_required := decide (penalty_points ≥ 200),
    appeal_allowed := decide (penalty_points < 1000) }

/-- Result dict of `_verification_bounty_contract`; `next_level_requirement`
is `none` for the string `MAX_LEVEL`. -/
structure BountyResult where
  contract_type : String
  verifier_email : String
  bounty_awarded : Int
  verifier_level : String
  quality_score : Int
  total_earned : Int
  next_level_requirement : Option Nat
deriving DecidableEq

/-- Model of `_verification_bounty_contract`; the float arithmetic of the
source is carried out on exact rationals. -/
def verification_bounty_contract (inputs : CInputs) (context : CContext) : BountyResult :=
  let verifier_email := inputs.verifier_email
  let verification_quality := inputs.verification_quality
  let claim_complexity := inputs.claim_complexity
  let verification_speed := inputs.verification_speed
  let base_bounty : Int := if claim_complexity = "SIMPLE" then 10
    else if claim_complexity = "MODERATE" then 25
    else if claim_complexity = "COMPLEX" then 50
    else if claim_complexity = "EXPERT" then 100 else 10
  let quality_multiplier : ℚ := (verification_quality : ℚ) / 100
  let speed_bonus : ℚ := if verification_speed = "INSTANT" then 3/2
    else if verification_speed = "FAST" then 6/5
    else if verification_speed = "NORMAL" then 1
    else if verification_speed = "SLOW" then 4/5 else 1
  let fb0 : Int := pyInt ((base_bounty : ℚ) * quality_multiplier * speed_bonus)
  let verifier_history := context.verifier_history
  let total_verifications := verifier_history.length
  let lv := if total_verifications ≥ 100 then ("EXPERT", (50 : Int))
    else if total_verifications ≥ 50 then ("ADVANCED", 25)
    else if total_verifications ≥ 10 then ("INTERMEDIATE", 10)
    else ("BEGINNER", 0)
  let final_bounty := fb0 + lv.2
  { contract_type := "verification_bounty",
    verifier_email := verifier_email,
    bounty_awarded := final_bounty,
    verifier_level := lv.1,
    quality_score := verification_quality,
    total_earned := verifier_history.sum + final_bounty,
    next_level_requirement := if lv.1 = "BEGINNER" then some 10
      else if lv.1 = "INTERMEDIATE" then some 50
      else if lv.1 = "ADVANCED" then some 100 else none }

/-- Result dict of `_transparency_tracker_contract`. -/
structure TransparencyResult where
  contract_type : String
  company_name : String
  transparency_score : ℚ
  improvement : ℚ
  recognition_level : String
  areas_disclosed : List String
  response_time_rating : String
  recommended_improvements : List String
deriving DecidableEq

/-- Model of `_get_transparency_recommendations`. -/
def get_transparency_recommendations (score : ℚ) : List String :=
  (if score < 90 then ["Publish detailed sustainability reports"] else []) ++
  (if score < 75 then ["Provide supply chain transparency"] else []) ++
  (if score < 60 then ["Share environmental impact data"] else []) ++
  (if score < 40 then ["Respond to verification requests promptly"] else []) ++
  (if score < 25 then ["Establish basic environmental disclosure practices"] else [])

/-- Two-decimal rounding on exact rationals, modelling Python `round(x, 2)`
(the model rounds half up; the float-level tie behavior is outside scope and
no claim depends on it). -/
def roundTo2 (q : ℚ) : ℚ := (⌊q * 100 + 1/2⌋ : ℚ) / 100

/-- Model of `_transparency_tracker_contract`. -/
def transparency_tracker_contract (inputs : CInputs) (context : CContext) : TransparencyResult :=
  let company_name := inputs.company_name
  let disclosed_data := inputs.disclosed_data
  let response_time := inputs.response_time_hours
  let data_completeness := inputs.data_completeness
  let disclosure_score : Int := (disclosed_data.length : Int) * 10
  let timeliness_score : Int := max 0 (100 - response_time)
  let completeness_score : Int := data_completeness
  let transparency_score : ℚ :=
    ((disclosure_score + timeliness_score + completeness_score : Int) : ℚ) / 3
  let history := context.transparency_history
  let improvement : ℚ := if history.length ≥ 2 then
      transparency_score - ((history.drop (history.length - 3)).sum /
        ((min 3 history.length : Nat) : ℚ))
    else 0
  { contract_type := "transparency_tracker",
    company_name := company_name,
    transparency_score := roundTo2 transparency_score,
    improvement := roundTo2 improvement,
    recognition_level := if transparency_score ≥ 90 then "TRANSPARENCY_CHAMPION"
      else if transparency_score ≥ 75 then "TRANSPARENCY_LEADER"
      else if transparency_score ≥ 60 then "TRANSPARENCY_PRACTITIONER"
      else if transparency_score ≥ 40 then "TRANSPARENCY_BEGINNER"
      else "TRANSPARENCY_NEEDED",
    areas_disclosed := disclosed_data,
    response_time_rating := if response_time < 24 then "EXCELLENT"
      else if response_time < 72 then "GOOD"
      else if response_time < 168 then "AVERAGE" else "POOR",
    recommended_improvements := get_transparency_recommendations transparency_score }

/-- The tagged union of the six result dicts. -/
inductive ContractResult
  | greenwashing (r : GreenwashResult)
  | rewards (r : RewardsResult)
  | flagging (r : FlagResult)
  | penalty (r : PenaltyResult)
  | bounty (r : BountyResult)
  | transparency (r : TransparencyResult)
deriving DecidableEq

/-- One entry of `execution_history`. -/
structure ExecRecord where
  execution_id : String
  inputs : CInputs
  result : ContractResult
  gas_used : Nat
  execution_time : ℚ
  timestamp : String
deriving DecidableEq

/-- A deployed `GreenGuardSmartContract` instance; `parameters` is the
deploy-time parameters map as key-value string pairs. -/
structure Contract where
  contract_id : String
  contract_type : ContractType
  creator : String
  parameters : List (String × String)
  state : ContractState
  created_at : ℚ
  executed_count : Nat
  total_gas_used : Nat
  execution_history : List ExecRecord
deriving DecidableEq

/-- The dispatch at the top of `execute`: each variant's evaluator applied to
the inputs and context. Only the contract's type is consulted — in
particular, never its deploy-time `parameters`. -/
def contractEval (c : Contract) (inputs : CInputs) (context : CContext) : ContractResult :=
  match c.contract_type with
  | .GREENWASHING_DETECTOR => .greenwashing (greenwashing_detector_contract inputs context)
  | .SUSTAINABILITY_REWARDS => .rewards (sustainability_rewards_contract inputs context)
  | .AUTOMATIC_FLAGGING => .flagging (automatic_flagging_contract inputs context)
  | .PENALTY_SYSTEM => .penalty (penalty_system_contract inputs context)
  | .VERIFICATION_BOUNTY => .bounty (verification_bounty_contract inputs context)
  | .TRANSPARENCY_TRACKER => .transparency (transparency_tracker_contract inputs context)

/-- Decimal rendering of an integer. -/
def intToStr (i : Int) : String := (if i < 0 then "-" else "") ++ natToStr i.natAbs

/-- Rendering of an exact rational, for the result-size gas proxy. -/
def ratToStr (q : ℚ) : String := intToStr q.num ++ "/" ++ natToStr q.den

/-- Python-style bool rendering. -/
def boolStr (b : Bool) : String := if b then "True" else "False"

/-- Rendering of the `none`-as-MAX optional tier field. -/
def optNatStr : Option Nat → String
  | none => "MAX"
  | some n => natToStr n

/-- The model's serialization of a result dict, standing in for Python
`str(result)`; the gas formula only consumes its length. -/
def resultStr (r : ContractResult) : String :=
  match r with
  | .greenwashing g =>
    "\x7b" ++ g.contract_type ++ g.company_name ++ g.risk_assessment ++
    String.join g.actions_triggered ++ String.join g.alerts_generated ++
    intToStr g.penalty_points ++ boolStr g.requires_human_review ++
    boolStr g.automated_response ++ "\x7d"
  | .rewards w =>
    "\x7b" ++ w.contract_type ++ w.company_name ++ intToStr w.points_awarded ++
    w.badge_earned ++ w.tier ++ String.join w.special_rewards ++
    boolStr w.eligible_for_promotion ++ optNatStr w.next_tier_requirement ++ "\x7d"
  | .flagging fl =>
    "\x7b" ++ fl.contract_type ++ fl.company_name ++ String.join fl.flags_triggered ++
    natToStr fl.risk_score ++ fl.recommended_action ++ fl.priority ++
    boolStr fl.requires_manual_review ++ boolStr fl.auto_flagged ++ "\x7d"
  | .penalty p =>
    "\x7b" ++ p.contract_type ++ p.company_name ++ intToStr p.penalty_points ++
    String.join p.consequences ++ boolStr p.rehabilitation_required ++
    boolStr p.appeal_allowed ++ "\x7d"
  | .bounty bo =>
    "\x7b" ++ bo.contract_type ++ bo.verifier_email ++ intToStr bo.bounty_awarded ++
    bo.verifier_level ++ intToStr bo.quality_score ++ intToStr bo.total_earned ++
    optNatStr bo.next_level_requirement ++ "\x7d"
  | .transparency t =>
    "\x7b" ++ t.contract_type ++ t.company_name ++ ratToStr t.transparency_score ++
    ratToStr t.improvement ++ t.recognition_level ++ String.join t.areas_disclosed ++
    t.response_time_rating ++ String.join t.recommended_improvements ++ "\x7d"

/-- Model of `_calculate_gas_usage`:
`100 + len(str(result)) // 10 + int(execution_time * 50)`. -/
def calculate_gas_usage (result : ContractResult) (execution_time : ℚ) : Nat :=
  let base_gas := 100
  let complexity_gas := (resultStr result).length / 10
  let time_gas := (pyInt (execution_time * 50)).toNat
  base_gas + complexity_gas + time_gas

/-- The structured value returned by `execute`: the success dict
`{success, contract_id, execution_id, result, gas_used, execution_time}` or
the failure dict `{success, contract_id, error, gas_used}`. -/
inductive ExecOutcome
  | success (contract_id execution_id : String) (result : ContractResult)
      (gas_used : Nat) (execution_time : ℚ)
  | failure (contract_id error : String) (gas_used : Nat)
deriving DecidableEq

/-- The `execute` wrapper around the variant logic. `r` is the outcome of the
try-block dispatch — `Except.ok` a result, or `Except.error` the message of a
raised exception (Python exceptions from malformed dynamic inputs); `now` is
`int(time.time())` and `nowIso` the record timestamp. On success: state
`EXECUTED`, counters bumped, a record appended, the success dict returned; on
any failure: state `FAILED`, nothing else touched, the failure dict with
`gas_used = 50` returned — the wrapper itself never raises, being a total
function. -/
def executeWith (c : Contract) (inputs : CInputs) (r : Except String ContractResult)
    (execution_time : ℚ) (now : Nat) (nowIso : String) : Contract × ExecOutcome :=
  match r with
  | .error e => ({ c with state := .FAILED }, .failure c.contract_id e 50)
  | .ok result =>
    let gas_used := calculate_gas_usage result execution_time
    let execution_id := "EXEC_" ++ natToStr now ++ "_" ++ natToStr (c.executed_count + 1)
    let record : ExecRecord :=
      { execution_id := execution_id, inputs := inputs, result := result,
        gas_used := gas_used, execution_time := execution_time, timestamp := nowIso }
    ({ c with
        state := .EXECUTED, executed_count := c.executed_count + 1,
        total_gas_used := c.total_gas_used + gas_used,
        execution_history := c.execution_history ++ [record] },
     .success c.contract_id execution_id result gas_used execution_time)

/-- `execute` with the dispatch inlined: the variant logic of the six
evaluators is total on well-typed inputs, so it always supplies `Except.ok`. -/
def execute (c : Contract) (inputs : CInputs) (context : CContext)
    (execution_time : ℚ) (now : Nat) (nowIso : String) : Contract × ExecOutcome :=
  executeWith c inputs (Except.ok (contractEval c inputs context)) execution_time now nowIso

/-- Association-list insertion with Python-dict overwrite semantics. -/
def setA : List (String × Contract) → String → Contract → List (String × Contract)
  | [], k, v => [(k, v)]
  | (k2, v2) :: rest, k, v =>
    if k2 = k then (k, v) :: rest else (k2, v2) :: setA rest k v

/-- Association-list lookup (`self.contracts[contract_id]`). -/
def getA : List (String × Contract) → String → Option Contract
  | [], _ => none
  | (k2, v2) :: rest, k => if k2 = k then some v2 else getA rest k

/-- The type-to-latest-id index, with dict overwrite semantics. -/
def setReg : List (ContractType × String) → ContractType → String →
    List (ContractType × String)
  | [], t, v => [(t, v)]
  | (t2, v2) :: rest, t, v =>
    if t2 = t then (t, v) :: rest else (t2, v2) :: setReg rest t v

/-- The `SmartContractBlockchain` registry state: contracts by id, plus the
type-to-latest-id index. -/
structure SCB where
  contracts : List (String × Contract)
  contract_registry : List (ContractType × String)
deriving DecidableEq

/-- Model of `deploy_contract`: the id is `SC_<type.value>_<int(time.time())>`,
the fresh contract starts `PENDING` with zero counters, and both dict inserts
use overwrite semantics. -/
def deploy_contract (s : SCB) (t : ContractType) (creator : String)
    (parameters : List (String × String)) (now : Nat) : SCB × String :=
  let contract_id := "SC_" ++ t.value ++ "_" ++ natToStr now
  let c : Contract :=
    { contract_id := contract_id, contract_type := t, creator := creator,
      parameters := parameters, state := .PENDING, created_at := (now : ℚ),
      executed_count := 0, total_gas_used := 0, execution_history := [] }
  ({ contracts := setA s.contracts contract_id c,
     contract_registry := setReg s.contract_registry t contract_id }, contract_id)

/-- The six default deployments of `_deploy_default_contracts`, with their
parameter maps. -/
def default_contracts : List (ContractType × List (String × String)) :=
  [(.GREENWASHING_DETECTOR, [("sensitivity", "0.7")]),
   (.SUSTAINABILITY_REWARDS, [("max_points", "1000")]),
   (.AUTOMATIC_FLAGGING, [("threshold", "50")]),
   (.PENALTY_SYSTEM, [("max_penalty", "1000")]),
   (.VERIFICATION_BOUNTY, [("max_bounty", "200")]),
   (.TRANSPARENCY_TRACKER, [("update_frequency", "weekly")])]

/-- A fresh `SmartContractBlockchain`: the six default contracts deployed at
time `now`. -/
def initSCB (now : Nat) : SCB :=
  default_contracts.foldl
    (fun s p => (deploy_contract s p.1 "system@greenguard.com" p.2 now).1)
    { contracts := [], contract_registry := [] }

/-- The registry operations that mutate contract statistics: deployments and
contract executions (an execution on an unknown id is a no-op here; the
callers only pass registered ids). -/
inductive Op
  | deployOp (t : ContractType) (creator : String)
      (parameters : List (String × String)) (now : Nat)
  | execOp (cid : String) (inputs : CInputs) (r : Except String ContractResult)
      (execution_time : ℚ) (now : Nat) (nowIso : String)

/-- One registry step. -/
def stepOp (s : SCB) : Op → SCB
  | .deployOp t creator params now => (deploy_contract s t creator params now).1
  | .execOp cid inputs r t now iso =>
    match getA s.contracts cid with
    | none => s
    | some c =>
      { s with contracts := setA s.contracts cid (executeWith c inputs r t now iso).1 }

/-- Run a sequence of registry operations. -/
def runOps (s : SCB) : List Op → SCB
  | [] => s
  | op :: rest => runOps (stepOp s op) rest

/-- The statistics dict of `get_contract_statistics` (the constant
`contract_types` name list is omitted). -/
structure ContractStats where
  total_contracts : Nat
  total_executions : Nat
  total_gas_used : Nat
  average_gas_per_execution : ℚ
  active_contracts : Nat
deriving DecidableEq

/-- Model of `SmartContractBlockchain.get_contract_statistics`. -/
def get_contract_statistics (s : SCB) : ContractStats :=
  let total_executions := (s.contracts.map (fun p => p.2.executed_count)).sum
  let total_gas_used := (s.contracts.map (fun p => p.2.total_gas_used)).sum
  { total_contracts := s.contracts.length,
    total_executions := total_executions,
    total_gas_used := total_gas_used,
    average_gas_per_execution := if total_executions > 0 then
        (total_gas_used : ℚ) / (total_executions : ℚ) else 0,
    active_contracts :=
      (s.contracts.filter (fun p => decide (p.2.state = ContractState.ACTIVE))).length }

/-- Truncation agrees with floor on nonnegative rationals. -/
theorem pyInt_nonneg_floor (q : ℚ) (h : 0 ≤ q) : pyInt q = ⌊q⌋ := by
  unfold pyInt
  rw [Rat.floor_def]
  exact Int.div_eq_ediv (Rat.num_nonneg.mpr h) (Int.natCast_nonneg q.den)

/-- Claim C4 fails as a universal statement: with a repeat-offender history
the detector adds a fourth action and 200 extra penalty points even when
`score < 20` and `confidence > 80` — here score 15, confidence 85, history
scores `[10, 10, 10]` yields penalty 300, not 100. -/
theorem C4_counterexample :
    (greenwashing_detector_contract
      { company_name := "Acme", verification_score := 15, confidence := 85 }
      { company_history := [10, 10, 10] }).penalty_points = 300 ∧
    (greenwashing_detector_contract
      { company_name := "Acme", verification_score := 15, confidence := 85 }
      { company_history := [10, 10, 10] }).actions_triggered ≠
      ["IMMEDIATE_FLAG", "COMMUNITY_ALERT", "REGULATORY_NOTIFICATION"] := by
  decide

/-- Claim C4, amended: whenever the repeat-offender adjustment does not fire
(history of at most 2 entries, or fewer than 2 of the last 5 entries scoring
below 40), the four threshold branches produce exactly the claimed actions,
penalty points and (for the first branch) the CRITICAL risk label; and for
every input and every history, `requires_human_review` holds exactly when
`score < 30`. -/
theorem C4_greenwashing_thresholds (inputs : CInputs) (ctx : CContext)
    (r : GreenwashResult) (hr : r = greenwashing_detector_contract inputs ctx) :
    (¬ (ctx.company_history.length > 2 ∧
      2 ≤ ((ctx.company_history.drop (ctx.company_history.length - 5)).filter
        (fun h => decide (h < 40))).length) →
      (inputs.verification_score < 20 ∧ inputs.confidence > 80 →
        r.actions_triggered = ["IMMEDIATE_FLAG", "COMMUNITY_ALERT", "REGULATORY_NOTIFICATION"] ∧
        r.penalty_points = 100 ∧ r.risk_assessment = "CRITICAL") ∧
      (¬ (inputs.verification_score < 20 ∧ inputs.confidence > 80) →
        inputs.verification_score < 40 ∧ inputs.confidence > 60 →
        r.actions_triggered = ["HIGH_RISK_FLAG", "REQUIRE_EVIDENCE"] ∧
        r.penalty_points = 50) ∧
      (¬ (inputs.verification_score < 20 ∧ inputs.confidence > 80) →
        ¬ (inputs.verification_score < 40 ∧ inputs.confidence > 60) →
        inputs.verification_score < 60 →
        r.actions_triggered = ["MODERATE_RISK_FLAG", "REQUEST_CLARIFICATION"] ∧
        r.penalty_points = 25) ∧
      (¬ (inputs.verification_score < 20 ∧ inputs.confidence > 80) →
        ¬ (inputs.verification_score < 40 ∧ inputs.confidence > 60) →
        ¬ inputs.verification_score < 60 →
        r.actions_triggered = ["APPROVED"] ∧ r.penalty_points = 0)) ∧
    (r.requires_human_review = true ↔ inputs.verification_score < 30) := by
  subst hr
  unfold greenwashing_detector_contract
  constructor
  · intro hnr
    simp only [hnr, if_false]
    refine ⟨?_, ?_, ?_, ?_⟩
    · intro h1
      rw [if_pos h1]
      exact ⟨rfl, rfl, by simp [if_pos h1.1]⟩
    · intro h1 h2
      rw [if_neg h1, if_pos h2]
      exact ⟨rfl, rfl⟩
    · intro h1 h2 h3
      rw [if_neg h1, if_neg h2, if_pos h3]
      exact ⟨rfl, rfl⟩
    · intro h1 h2 h3
      rw [if_neg h1, if_neg h2, if_neg h3]
      exact ⟨rfl, rfl⟩
  · simp

/-- Witness for the amended C4: score 15, confidence 85, empty history gives
exactly the three critical actions, penalty 100 and risk CRITICAL. -/
theorem C4_greenwashing_thresholds_witness :
    (greenwashing_detector_contract
      { company_name := "TestCorp", verification_score := 15, confidence := 85 }
      {}).actions_triggered = ["IMMEDIATE_FLAG", "COMMUNITY_ALERT", "REGULATORY_NOTIFICATION"] ∧
    (greenwashing_detector_contract
      { company_name := "TestCorp", verification_score := 15, confidence := 85 }
      {}).penalty_points = 100 ∧
    (greenwashing_detector_contract
      { company_name := "TestCorp", verification_score := 15, confidence := 85 }
      {}).risk_assessment = "CRITICAL" :=
  ((C4_greenwashing_thresholds
    { company_name := "TestCorp", verification_score := 15, confidence := 85 } {}
    _ rfl).1 (by decide)).1 (by decide)

/-- Claim C5 fails as stated: with exactly 2 history entries, both scoring
below 40, at least 2 of the last 5 entries are violations, yet the
`len(company_history) > 2` guard blocks the repeat-offender adjustment:
no flag, and the penalty stays at the base 25 for score 50. -/
theorem C5_counterexample :
    2 ≤ (([10, 10] : List Int).filter (fun h => decide (h < 40))).length ∧
    "REPEAT_OFFENDER_FLAG" ∉ (greenwashing_detector_contract
      { verification_score := 50 } { company_history := [10, 10] }).actions_triggered ∧
    (greenwashing_detector_contract
      { verification_score := 50 } { company_history := [10, 10] }).penalty_points = 25 := by
  decide

/-- Claim C5, amended: when the history has more than 2 entries and at least
2 of the last 5 score below 40, `REPEAT_OFFENDER_FLAG` is appended and 200
penalty points are added on top of the threshold-branch base. -/
theorem C5_repeat_offender (inputs : CInputs) (ctx : CContext)
    (h1 : ctx.company_history.length > 2)
    (h2 : 2 ≤ ((ctx.company_history.drop (ctx.company_history.length - 5)).filter
      (fun h => decide (h < 40))).length) :
    "REPEAT_OFFENDER_FLAG" ∈
      (greenwashing_detector_contract inputs ctx).actions_triggered ∧
    (greenwashing_detector_contract inputs ctx).penalty_points =
      (if inputs.verification_score < 20 ∧ inputs.confidence > 80 then 100
       else if inputs.verification_score < 40 ∧ inputs.confidence > 60 then 50
       else if inputs.verification_score < 60 then 25 else 0) + 200 := by
  unfold greenwashing_detector_contract
  simp only [if_pos (And.intro h1 h2)]
  constructor
  · split_ifs <;> simp
  · split_ifs <;> rfl

/-- Witness for the amended C5: score 50 with history `[10, 10, 10]` gets the
flag and penalty 25 + 200. -/
theorem C5_repeat_offender_witness :
    "REPEAT_OFFENDER_FLAG" ∈ (greenwashing_detector_contract
      { verification_score := 50 } { company_history := [10, 10, 10] }).actions_triggered ∧
    (greenwashing_detector_contract
      { verification_score := 50 } { company_history := [10, 10, 10] }).penalty_points =
      (if (50 : Int) < 20 ∧ (0 : Int) > 80 then 100
       else if (50 : Int) < 40 ∧ (0 : Int) > 60 then 50
       else if (50 : Int) < 60 then 25 else 0) + 200 :=
  C5_repeat_offender { verification_score := 50 } { company_history := [10, 10, 10] }
    (by decide) (by decide)

/-- Claim C6 fails on its exactly-one-tier conjunct: severity LOW, no repeat,
LOCAL scale gives penalty 10, below every tier threshold, so the consequence
list is empty — no tier's fixed list is produced. -/
theorem pyInt_intCast (k : Int) : pyInt ((k : ℚ)) = k := by
  unfold pyInt
  rw [Rat.intCast_num, Rat.intCast_den]
  exact Int.tdiv_one k

theorem C6_counterexample :
    (penalty_system_contract
      { violation_severity := "LOW", repeat_offender := false, impact_scale := "LOCAL" }
      {}).penalty_points = 10 ∧
    (penalty_system_contract
      { violation_severity := "LOW", repeat_offender := false, impact_scale := "LOCAL" }
      {}).consequences = [] := by
  have h10 : (penalty_system_contract
      { violation_severity := "LOW", repeat_offender := false, impact_scale := "LOCAL" }
      ({} : CContext)).penalty_points = 10 := by
    simp only [penalty_system_contract]
    norm_num
    rw [show (10 : ℚ) = ((10 : Int) : ℚ) by norm_num]
    rw [pyInt_intCast]
  refine ⟨h10, ?_⟩
  show (if (penalty_system_contract
      { violation_severity := "LOW", repeat_offender := false, impact_scale := "LOCAL" }
      ({} : CContext)).penalty_points ≥ 1000 then
        ["PLATFORM_BAN", "REGULATORY_REFERRAL", "PUBLIC_WARNING_ISSUED"]
      else if (penalty_system_contract
      { violation_severity := "LOW", repeat_offender := false, impact_scale := "LOCAL" }
      ({} : CContext)).penalty_points ≥ 500 then
        ["VERIFICATION_REQUIRED_FOR_ALL_CLAIMS", "MONTHLY_MONITORING", "PUBLIC_NOTICE"]
      else if (penalty_system_contract
      { violation_severity := "LOW", repeat_offender := false, impact_scale := "LOCAL" }
      ({} : CContext)).penalty_points ≥ 200 then
        ["ENHANCED_SCRUTINY", "QUARTERLY_REVIEW", "WARNING_ISSUED"]
      else if (penalty_system_contract
      { violation_severity := "LOW", repeat_offender := false, impact_scale := "LOCAL" }
      ({} : CContext)).penalty_points ≥ 50 then
        ["FORMAL_WARNING", "REQUIRED_TRAINING"]
      else []) = []
  rw [h10]
  norm_num

/-- Claim C6, amended: for the four listed severities and four scales,
penalty points are the base `{LOW 10, MEDIUM 50, HIGH 200, CRITICAL 500}`,
doubled on repeat offense, scaled by `{LOCAL 1, REGIONAL 3/2, NATIONAL 2,
GLOBAL 3}` and truncated; at most one consequence tier fires — the highest
threshold reached — and none below 50 points; rehabilitation is required
exactly at 200 points or more, and appeal is allowed exactly below 1000. -/
theorem C6_penalty_system (inputs : CInputs) (ctx : CContext) (r : PenaltyResult)
    (hr : r = penalty_system_contract inputs ctx)
    (hsev : inputs.violation_severity ∈ ["LOW", "MEDIUM", "HIGH", "CRITICAL"])
    (hsc : inputs.impact_scale ∈ ["LOCAL", "REGIONAL", "NATIONAL", "GLOBAL"]) :
    r.penalty_points = pyInt (
      (((if inputs.violation_severity = "LOW" then (10 : Int)
         else if inputs.violation_severity = "MEDIUM" then 50
         else if inputs.violation_severity = "HIGH" then 200 else 500) *
        (if inputs.repeat_offender then 2 else 1) : Int) : ℚ) *
      (if inputs.impact_scale = "LOCAL" then 1
       else if inputs.impact_scale = "REGIONAL" then 3/2
       else if inputs.impact_scale = "NATIONAL" then 2 else 3)) ∧
    r.consequences = (if r.penalty_points ≥ 1000 then
        ["PLATFORM_BAN", "REGULATORY_REFERRAL", "PUBLIC_WARNING_ISSUED"]
      else if r.penalty_points ≥ 500 then
        ["VERIFICATION_REQUIRED_FOR_ALL_CLAIMS", "MONTHLY_MONITORING", "PUBLIC_NOTICE"]
      else if r.penalty_points ≥ 200 then
        ["ENHANCED_SCRUTINY", "QUARTERLY_REVIEW", "WARNING_ISSUED"]
      else if r.penalty_points ≥ 50 then
        ["FORMAL_WARNING", "REQUIRED_TRAINING"]
      else []) ∧
    (r.penalty_points < 50 → r.consequences = []) ∧
    (r.rehabilitation_required = true ↔ r.penalty_points ≥ 200) ∧
    (r.appeal_allowed = true ↔ r.penalty_points < 1000) := by
  subst hr
  simp only [List.mem_cons, List.not_mem_nil, or_false] at hsev hsc
  refine ⟨?_, ?_, ?_, ?_, ?_⟩
  · rcases hsev with h | h | h | h <;> rcases hsc with g | g | g | g <;>
      cases hrep : inputs.repeat_offender <;>
        simp [penalty_system_contract, h, g, hrep]
  · rfl
  · intro hlt
    show (if (penalty_system_contract inputs ctx).penalty_points ≥ 1000 then
        ["PLATFORM_BAN", "REGULATORY_REFERRAL", "PUBLIC_WARNING_ISSUED"]
      else if (penalty_system_contract inputs ctx).penalty_points ≥ 500 then
        ["VERIFICATION_REQUIRED_FOR_ALL_CLAIMS", "MONTHLY_MONITORING", "PUBLIC_NOTICE"]
      else if (penalty_system_contract inputs ctx).penalty_points ≥ 200 then
        ["ENHANCED_SCRUTINY", "QUARTERLY_REVIEW", "WARNING_ISSUED"]
      else if (penalty_system_contract inputs ctx).penalty_points ≥ 50 then
        ["FORMAL_WARNING", "REQUIRED_TRAINING"]
      else []) = []
    rw [if_neg (by omega), if_neg (by omega), if_neg (by omega), if_neg (by omega)]
  · show (decide ((penalty_system_contract inputs ctx).penalty_points ≥ 200) = true) ↔ _
    exact decide_eq_true_iff
  · show (decide ((penalty_system_contract inputs ctx).penalty_points < 1000) = true) ↔ _
    exact decide_eq_true_iff

/-- Witness for the amended C6: severity HIGH, repeat offender, GLOBAL scale
gives 200 × 2 × 3 = 1200 points and the PLATFORM_BAN tier. -/
theorem C6_penalty_system_witness :
    (penalty_system_contract
      { violation_severity := "HIGH", repeat_offender := true, impact_scale := "GLOBAL" }
      {}).penalty_points = 1200 ∧
    "PLATFORM_BAN" ∈ (penalty_system_contract
      { violation_severity := "HIGH", repeat_offender := true, impact_scale := "GLOBAL" }
      {}).consequences := by
  have h := C6_penalty_system
    { violation_severity := "HIGH", repeat_offender := true, impact_scale := "GLOBAL" }
    {} _ rfl (by decide) (by decide)
  have hp : (penalty_system_contract
      { violation_severity := "HIGH", repeat_offender := true, impact_scale := "GLOBAL" }
      ({} : CContext)).penalty_points = 1200 := by
    simp [penalty_system_contract]
    norm_num
    rw [show (1200 : ℚ) = ((1200 : Int) : ℚ) by norm_num]
    rw [pyInt_intCast]
  refine ⟨hp, ?_⟩
  rw [h.2.1, hp]
  simp

/-- Claim C7: the `execute` wrapper is a total function — it never raises. On
an evaluator result it sets state EXECUTED, increments `executed_count`,
appends exactly one execution record, returns the success dict, and charges
`gas = 100 + len(serialize(result)) / 10 + floor(t * 50)`; on an evaluator
failure it sets state FAILED and returns the failure dict with gas 50. -/
theorem C7_execute_never_raises (c : Contract) (inputs : CInputs)
    (r : Except String ContractResult) (t : ℚ) (now : Nat) (iso : String)
    (ht : 0 ≤ t) :
    (∀ res, r = Except.ok res →
      (executeWith c inputs r t now iso).1.state = ContractState.EXECUTED ∧
      (executeWith c inputs r t now iso).1.executed_count = c.executed_count + 1 ∧
      (executeWith c inputs r t now iso).1.execution_history =
        c.execution_history ++
          [{ execution_id := "EXEC_" ++ natToStr now ++ "_" ++ natToStr (c.executed_count + 1),
             inputs := inputs, result := res, gas_used := calculate_gas_usage res t,
             execution_time := t, timestamp := iso }] ∧
      (executeWith c inputs r t now iso).2 = ExecOutcome.success c.contract_id
        ("EXEC_" ++ natToStr now ++ "_" ++ natToStr (c.executed_count + 1)) res
        (calculate_gas_usage res t) t ∧
      (calculate_gas_usage res t : Int) =
        100 + (((resultStr res).length / 10 : Nat) : Int) + ⌊t * 50⌋) ∧
    (∀ e, r = Except.error e →
      (executeWith c inputs r t now iso).1.state = ContractState.FAILED ∧
      (executeWith c inputs r t now iso).2 = ExecOutcome.failure c.contract_id e 50) := by
  constructor
  · rintro res rfl
    refine ⟨rfl, rfl, rfl, rfl, ?_⟩
    have h50 : (0 : ℚ) ≤ t * 50 := mul_nonneg ht (by norm_num)
    have hf : pyInt (t * 50) = ⌊t * 50⌋ := pyInt_nonneg_floor _ h50
    have hnn : 0 ≤ ⌊t * 50⌋ := Int.floor_nonneg.mpr h50
    have h1 : ((pyInt (t * 50)).toNat : Int) = ⌊t * 50⌋ := by
      rw [hf]
      exact Int.toNat_of_nonneg hnn
    unfold calculate_gas_usage
    push_cast [h1]
    ring
  · rintro e rfl
    exact ⟨rfl, rfl⟩

/-- A concrete pending contract for the execute witnesses. -/
def wContract : Contract :=
  { contract_id := "SC_greenwashing_detector_1", contract_type := .GREENWASHING_DETECTOR,
    creator := "system@greenguard.com", parameters := [("sensitivity", "0.7")],
    state := .PENDING, created_at := 1, executed_count := 0, total_gas_used := 0,
    execution_history := [] }

/-- A concrete evaluator result for the execute witnesses. -/
def wRes : ContractResult :=
  ContractResult.greenwashing (greenwashing_detector_contract {} {})

/-- Witness for C7: a concrete successful execution reaches state EXECUTED
with count 1, and a concrete evaluator failure reaches state FAILED with the
gas-50 failure dict. -/
theorem C7_execute_never_raises_witness :
    (executeWith wContract {} (Except.ok wRes) 0 5 "T").1.executed_count = 1 ∧
    (executeWith wContract {} (Except.ok wRes) 0 5 "T").1.state = ContractState.EXECUTED ∧
    (executeWith wContract {} (Except.error "TypeError") 0 5 "T").1.state =
      ContractState.FAILED ∧
    (executeWith wContract {} (Except.error "TypeError") 0 5 "T").2 =
      ExecOutcome.failure "SC_greenwashing_detector_1" "TypeError" 50 := by
  have hok := (C7_execute_never_raises wContract {} (Except.ok wRes) 0 5 "T"
    (by norm_num)).1 wRes rfl
  have herr := (C7_execute_never_raises wContract {} (Except.error "TypeError") 0 5 "T"
    (by norm_num)).2 "TypeError" rfl
  exact ⟨hok.2.1, hok.1, herr.1, herr.2⟩

/-- Claim C9: a failed execution leaves `executed_count`, `total_gas_used`
and `execution_history` exactly as they were — nothing is appended and no gas
is charged to the contract's totals; only the state changes, to FAILED — and
the caller receives the failure dict. -/
theorem C9_failed_execution_frame (c : Contract) (inputs : CInputs) (e : String)
    (t : ℚ) (now : Nat) (iso : String) :
    (executeWith c inputs (Except.error e) t now iso).1.executed_count = c.executed_count ∧
    (executeWith c inputs (Except.error e) t now iso).1.total_gas_used = c.total_gas_used ∧
    (executeWith c inputs (Except.error e) t now iso).1.execution_history =
      c.execution_history ∧
    (executeWith c inputs (Except.error e) t now iso).1 =
      { c with state := ContractState.FAILED } ∧
    (executeWith c inputs (Except.error e) t now iso).2 =
      ExecOutcome.failure c.contract_id e 50 :=
  ⟨rfl, rfl, rfl, rfl, rfl⟩

/-- The result carried by an outcome, when the execution succeeded. -/
def ExecOutcome.resultOf : ExecOutcome → Option ContractResult
  | .success _ _ r _ _ => some r
  | .failure _ _ _ => none

/-- Claim C10: the evaluator result is independent of the deploy-time
parameters map — two contracts of the same type produce identical dispatch
results and identical `result` fields from `execute` on the same inputs and
context. -/
theorem C10_parameters_never_consulted (c₁ c₂ : Contract) (inputs : CInputs)
    (ctx : CContext) (t : ℚ) (now : Nat) (iso : String)
    (h : c₁.contract_type = c₂.contract_type) :
    contractEval c₁ inputs ctx = contractEval c₂ inputs ctx ∧
    ((execute c₁ inputs ctx t now iso).2).resultOf =
      ((execute c₂ inputs ctx t now iso).2).resultOf := by
  have h1 : contractEval c₁ inputs ctx = contractEval c₂ inputs ctx := by
    unfold contractEval
    rw [h]
  refine ⟨h1, ?_⟩
  simp only [execute, executeWith, ExecOutcome.resultOf]
  rw [h1]

/-- A second greenwashing contract with a different parameters map. -/
def wContractB : Contract :=
  { contract_id := "SC_greenwashing_detector_2", contract_type := .GREENWASHING_DETECTOR,
    creator := "alice@example.com", parameters := [("max_points", "1000")],
    state := .PENDING, created_at := 2, executed_count := 0, total_gas_used := 0,
    execution_history := [] }

/-- Witness for C10: two same-type contracts with different parameters give
identical evaluator results on the same input. -/
theorem C10_parameters_never_consulted_witness :
    wContract.parameters ≠ wContractB.parameters ∧
    contractEval wContract { verification_score := 15, confidence := 85 } {} =
      contractEval wContractB { verification_score := 15, confidence := 85 } {} :=
  ⟨by decide, (C10_parameters_never_consulted wContract wContractB
    { verification_score := 15, confidence := 85 } {} 0 0 "" rfl).1⟩

/-- The sum of `executed_count` over all contracts of a registry state. -/
def totalExecs (s : SCB) : Nat := (s.contracts.map (fun p => p.2.executed_count)).sum

/-- Inserting at an id not in the map appends. -/
theorem setA_fresh : ∀ (l : List (String × Contract)) (k : String) (c : Contract),
    getA l k = none → setA l k c = l ++ [(k, c)] := by
  intro l
  induction l with
  | nil => intro k c _; rfl
  | cons p rest ih =>
    intro k c h
    obtain ⟨k2, v2⟩ := p
    simp only [getA] at h
    simp only [setA]
    by_cases hk : k2 = k
    · rw [if_pos hk] at h
      exact absurd h (by simp)
    · rw [if_neg hk] at h
      rw [if_neg hk, ih k c h]
      rfl

/-- Replacing a stored contract by one with no smaller execution count does
not decrease the total. -/
theorem setA_sum_ge : ∀ (l : List (String × Contract)) (k : String) (c c2 : Contract),
    getA l k = some c → c.executed_count ≤ c2.executed_count →
    (l.map (fun p => p.2.executed_count)).sum ≤
      ((setA l k c2).map (fun p => p.2.executed_count)).sum := by
  intro l
  induction l with
  | nil => intro k c c2 h _; simp [getA] at h
  | cons p rest ih =>
    intro k c c2 h hle
    obtain ⟨k2, v2⟩ := p
    simp only [getA] at h
    simp only [setA]
    by_cases hk : k2 = k
    · rw [if_pos hk] at h
      rw [if_pos hk]
      have hv : v2 = c := by simpa using h
      subst hv
      simp only [List.map_cons, List.sum_cons]
      omega
    · rw [if_neg hk] at h
      rw [if_neg hk]
      simp only [List.map_cons, List.sum_cons]
      exact Nat.add_le_add_left (ih k c c2 h hle) _

/-- Executions never decrease a contract's count. -/
theorem executeWith_count_ge (c : Contract) (inputs : CInputs)
    (r : Except String ContractResult) (t : ℚ) (now : Nat) (iso : String) :
    c.executed_count ≤ (executeWith c inputs r t now iso).1.executed_count := by
  cases r with
  | error e => exact Nat.le_refl _
  | ok res => exact Nat.le_succ _

/-- One registry step cannot decrease the total execution count, provided a
deployment does not overwrite an existing contract id. -/
theorem stepOp_totalExecs_le (s : SCB) (op : Op)
    (hok : match op with
      | Op.deployOp t _ _ now =>
          getA s.contracts ("SC_" ++ t.value ++ "_" ++ natToStr now) = none
      | Op.execOp _ _ _ _ _ _ => True) :
    totalExecs s ≤ totalExecs (stepOp s op) := by
  cases op with
  | deployOp t creator params now =>
    simp only [stepOp, deploy_contract]
    unfold totalExecs
    rw [setA_fresh _ _ _ hok]
    simp
  | execOp cid inputs r t now iso =>
    simp only [stepOp]
    cases hg : getA s.contracts cid with
    | none => exact Nat.le_refl _
    | some c =>
      exact setA_sum_ge s.contracts cid c _ hg
        (executeWith_count_ge c inputs r t now iso)

/-- No deployment in the sequence reuses an already-present contract id
(deploy ids collide exactly when the same type is deployed within the same
`int(time.time())` second). -/
def noOverwrite : SCB → List Op → Bool
  | _, [] => true
  | s, op :: rest =>
    (match op with
     | Op.deployOp t _ _ now =>
         decide (getA s.contracts ("SC_" ++ t.value ++ "_" ++ natToStr now) = none)
     | Op.execOp _ _ _ _ _ _ => true) && noOverwrite (stepOp s op) rest

/-- Overwrite-free operation sequences never decrease the total. -/
theorem runOps_totalExecs_le : ∀ (ops : List Op) (s : SCB),
    noOverwrite s ops = true → totalExecs s ≤ totalExecs (runOps s ops) := by
  intro ops
  induction ops with
  | nil => intro s _; exact Nat.le_refl _
  | cons op rest ih =>
    intro s h
    rw [noOverwrite.eq_def, Bool.and_eq_true] at h
    have h1 : totalExecs s ≤ totalExecs (stepOp s op) := by
      apply stepOp_totalExecs_le
      cases op with
      | deployOp t creator params now => exact of_decide_eq_true h.1
      | execOp cid inputs r t now iso => exact True.intro
    exact le_trans h1 (ih (stepOp s op) h.2)

/-- Claim C8, amended: in every registry state the reported
`total_executions` is the sum of `executed_count` over all stored contracts;
and across any operation sequence without a reset, successive statistics
queries are non-decreasing provided no deployment reuses an existing
contract id `SC_<type>_<int(time)>` (a same-second redeployment overwrites
the dict entry and loses its counts). -/
theorem C8_total_executions (s : SCB) (ops : List Op)
    (h : noOverwrite s ops = true) :
    (get_contract_statistics s).total_executions =
      (s.contracts.map (fun p => p.2.executed_count)).sum ∧
    (get_contract_statistics s).total_executions ≤
      (get_contract_statistics (runOps s ops)).total_executions :=
  ⟨rfl, runOps_totalExecs_le ops s h⟩

/-- A concrete execution of the default greenwashing contract. -/
def wExecOp : Op :=
  Op.execOp "SC_greenwashing_detector_0" {}
    (Except.ok (ContractResult.greenwashing (greenwashing_detector_contract {} {})))
    0 0 "T"

/-- A same-second redeployment of the greenwashing detector (same generated
id as the default deployment at time 0). -/
def wDeployOp : Op := Op.deployOp ContractType.GREENWASHING_DETECTOR "x" [] 0

set_option maxRecDepth 100000 in
/-- Claim C8 fails as stated: after one execution the statistics report 1
total execution, but a deploy (not a reset) of the same type in the same
second overwrites the contract under the identical id and the next query
reports 0 — a decrease between successive queries. -/
theorem C8_counterexample :
    (get_contract_statistics (runOps (initSCB 0) [wExecOp])).total_executions = 1 ∧
    (get_contract_statistics (runOps (runOps (initSCB 0) [wExecOp])
      [wDeployOp])).total_executions = 0 := by
  decide

set_option maxRecDepth 100000 in
/-- Witness for the amended C8: the concrete overwrite-free sequence of one
execution does not decrease the reported total. -/
theorem C8_total_executions_witness :
    noOverwrite (initSCB 0) [wExecOp] = true ∧
    (get_contract_statistics (initSCB 0)).total_executions ≤
      (get_contract_statistics (runOps (initSCB 0) [wExecOp])).total_executions :=
  ⟨by decide, (C8_total_executions (initSCB 0) [wExecOp] (by decide)).2⟩
